import Mathlib

/-
Shallow embedding of the AivisSpeech TTS adapter:
  - src/open_notebook/providers/aivis_speech.py (provider: registry, resolver,
    two-phase synthesis client, voice listing, health probe)
  - src/api/routers/aivis_tts.py (FastAPI router: request validation,
    exception-to-HTTP-status mapping, health route)

Modelling conventions:
  - Python dicts with a fixed literal layout (the SPEAKERS table) are embedded
    as association lists in declaration order, which is Python's dict iteration
    order.
  - The float `speed` is embedded as a rational number; its only uses in the
    code are an exact comparison with 1.0 and storage into a JSON document,
    both of which rationals model exactly for the representable values.
  - HTTP traffic is embedded as an oracle (`Engine`) giving each endpoint's
    outcome: a transport-level failure, or a response with a status code and a
    body. `response.raise_for_status()` raises exactly when the status is not
    in the 2xx range (httpx semantics).
  - Python exceptions are an explicit `PyExc` error type threaded through
    `Except`; the router's `except ValueError` / `except Exception` clauses
    become ordered matches over that type.
  - Each provider operation also returns the list of engine calls it issued,
    in order, so claims about "number of network calls" are statements about
    that trace.
-/

namespace AivisSpec

/-- One opaque JSON field value of an engine document (the adapter never
interprets these beyond storing `speed` as a number). -/
inductive JVal where
  | jnum (q : ℚ)
  | jstr (s : String)
deriving DecidableEq, Repr

/-- The opaque AudioQuery document: a JSON object embedded as an ordered
association list of fields. -/
abbrev AudioQuery : Type := List (String × JVal)

/-- Python `d[k] = v` on a dict: replace the value of an existing key in
place, else append the new key at the end. -/
def dictSet : AudioQuery → String → JVal → AudioQuery
  | [], k, v => [(k, v)]
  | (k', v') :: d, k, v =>
    if k' = k then (k, v) :: d else (k', v') :: dictSet d k v

/-- Python `d[k]` / `d.get(k)` on a dict: value of the first matching key. -/
def dictLookup : AudioQuery → String → Option JVal
  | [], _ => none
  | (k', v') :: d, k => if k' = k then some v' else dictLookup d k

/-- `AivisSpeechTTSProvider.SPEAKERS` (aivis_speech.py lines 19-34): the
static registry, a nested dict speaker name → style name → engine style id,
in declaration order. -/
def SPEAKERS : List (String × List (String × Nat)) :=
  [(("mao"),
      [(("normal"), 888753760),
       (("futsuu"), 888753761),
       (("amama"), 888753762),
       (("ochitsuki"), 888753763),
       (("karakai"), 888753764),
       (("setsunane"), 888753765)]),
   (("kohaku"),
      [(("normal"), 1878365376),
       (("amama"), 1878365377),
       (("setsunane"), 1878365378),
       (("nemutai"), 1878365379)])]

/-- Python `s.startswith(p)`, on the underlying character sequences. -/
def startswith (s p : String) : Bool :=
  p.data.isPrefixOf s.data

/-- Inner loop of `parse_voice_id`: scan one speaker's styles in declaration
order for a compound-name match. -/
def parseStylesLoop (voice_id speaker_name : String) :
    List (String × Nat) → Option (String × String)
  | [] => none
  | (style_name, _) :: rest =>
    if startswith voice_id ((speaker_name ++ ("_")) ++ style_name) then
      some (speaker_name, style_name)
    else parseStylesLoop voice_id speaker_name rest

/-- Outer loop of `parse_voice_id`: scan the speakers in declaration order. -/
def parseSpeakersLoop (voice_id : String) :
    List (String × List (String × Nat)) → Option (String × String)
  | [] => none
  | (speaker_name, styles) :: rest =>
    match parseStylesLoop voice_id speaker_name styles with
    | some p => some p
    | none => parseSpeakersLoop voice_id rest

/-- `AivisSpeechTTSProvider.parse_voice_id` (aivis_speech.py lines 62-70):
for each speaker and each of its styles, in declaration order, return the
first `(speaker, style)` pair such that the voice id starts with
`"{speaker}_{style}"`; `none` when no pair matches. -/
def parse_voice_id (voice_id : String) : Option (String × String) :=
  parseSpeakersLoop voice_id SPEAKERS

/-- All `(speakerName, styleName)` pairs of the registry, flattened in
declaration order. -/
def declaredPairs : List (String × String) :=
  SPEAKERS.flatMap (fun e => e.2.map (fun s => (e.1, s.1)))

/-- Modelled from the spec (§4.1): resolution returns the first declared
`(speakerName, styleName)` pair, in the registry's fixed declaration order,
whose compound `"{speakerName}_{styleName}"` is a literal prefix of the
voice id. -/
def resolveSpecOrder (voice_id : String) : Option (String × String) :=
  declaredPairs.find? (fun p => startswith voice_id ((p.1 ++ ("_")) ++ p.2))

theorem parseStylesLoop_eq_find (v sp : String) (styles : List (String × Nat)) :
    parseStylesLoop v sp styles =
      (styles.map (fun s => (sp, s.1))).find?
        (fun p => startswith v ((p.1 ++ ("_")) ++ p.2)) := by
  induction styles with
  | nil => rfl
  | cons s rest ih =>
    simp only [parseStylesLoop, List.map_cons, List.find?]
    by_cases h : startswith v ((sp ++ ("_")) ++ s.1) = true
    · simp [h]
    · simp only [Bool.not_eq_true] at h
      simp [h, ih]

theorem parseSpeakersLoop_eq_find (v : String)
    (regs : List (String × List (String × Nat))) :
    parseSpeakersLoop v regs =
      (regs.flatMap (fun e => e.2.map (fun s => (e.1, s.1)))).find?
        (fun p => startswith v ((p.1 ++ ("_")) ++ p.2)) := by
  induction regs with
  | nil => rfl
  | cons e rest ih =>
    simp only [parseSpeakersLoop, List.flatMap_cons, List.find?_append,
      parseStylesLoop_eq_find, ih]
    cases (e.2.map (fun s => (e.1, s.1))).find?
        (fun p => startswith v ((p.1 ++ ("_")) ++ p.2)) with
    | none => simp
    | some p => simp

/-- Python `cls.SPEAKERS[speaker_name][style_name]` (aivis_speech.py line
103): nested dict lookup, `none` embedding Python's `KeyError`. -/
def speakersLookup (sp st : String) : Option Nat :=
  match SPEAKERS.find? (fun e => e.1 == sp) with
  | none => none
  | some e => (e.2.find? (fun s => s.1 == st)).map (fun s => s.2)

/-- Outcome of one HTTP exchange with the engine: transport-level failure
(connection refused, timeout — httpx raises a transport error), or a
response with a status code and a body. -/
inductive HttpOutcome (α : Type) where
  | transportError
  | response (status : Nat) (body : α)

/-- A catalog style entry of the engine's `GET /speakers` payload. -/
structure CatalogStyle where
  name : String
  id : Nat
deriving DecidableEq, Repr

/-- A catalog speaker entry of the engine's `GET /speakers` payload. -/
structure CatalogSpeaker where
  name : String
  styles : List CatalogStyle
deriving DecidableEq, Repr

/-- The external engine as an oracle: the outcome of each of its three
endpoints for given request parameters. -/
structure Engine where
  speakersEp : HttpOutcome (List CatalogSpeaker)
  audioQueryEp : Nat → String → HttpOutcome AudioQuery
  synthesisEp : Nat → AudioQuery → HttpOutcome (List Nat)

/-- httpx `response.raise_for_status()` does not raise exactly when the
status is a success (2xx) status. -/
def is2xx (status : Nat) : Bool :=
  200 ≤ status && status < 300

/-- One engine call issued by the provider, with the request parameters the
code passes (`speaker` query parameter, and the text or document payload). -/
inductive EngineCall where
  | audioQuery (speaker : Nat) (text : String)
  | synthesis (speaker : Nat) (query : AudioQuery)
deriving DecidableEq, Repr

/-- The `speaker` query parameter an engine call carries. -/
def callSpeaker : EngineCall → Nat
  | .audioQuery sid _ => sid
  | .synthesis sid _ => sid

/-- The two kinds of `httpx.HTTPError`: `HTTPStatusError` from
`raise_for_status` on a non-success status (the spec's
`EngineRequestFailed`), and a transport-level error such as connection
refused or timeout (the spec's `EngineUnavailable`). -/
inductive EngineFailure where
  | httpStatus (status : Nat)
  | transport
deriving DecidableEq, Repr

/-- Python exceptions the two modules raise or catch. `httpException` is
FastAPI's `HTTPException` — a subclass of `Exception` and not of
`ValueError`; `httpxError` is any `httpx.HTTPError` (transport failure or
`raise_for_status`); `keyError` is a dict lookup miss. -/
inductive PyExc where
  | httpException (status : Nat) (detail : String)
  | valueError (msg : String)
  | httpxError (e : EngineFailure)
  | keyError
deriving DecidableEq, Repr

/-- The `ValueError` message of aivis_speech.py lines 97-100; it embeds the
offending voice id (the source wraps it in single quotes, elided here). -/
def invalidVoiceMsg (voice : String) : String :=
  (("Invalid voice_id ") ++ voice) ++
    (". Expected format: speaker_style (e.g., kohaku_normal)")

/-- The two-phase engine exchange of `synthesize` after voice resolution
(aivis_speech.py lines 107-141): POST /audio_query with
`{speaker: style_id, text}`, raise for a non-2xx status; set the document's
`speedScale` field to `speed` when `speed != 1.0`; POST /synthesis with the
same `speaker` and the (possibly modified) document, raise for a non-2xx
status; return the response bytes. The `except` clauses at lines 136-141
log and re-raise unchanged, so errors propagate as they are. The second
component is the trace of engine calls issued, in order. -/
def synthesizeResolved (eng : Engine) (text : String) (speed : ℚ)
    (style_id : Nat) : Except PyExc (List Nat) × List EngineCall :=
  match eng.audioQueryEp style_id text with
  | .transportError =>
      (.error (.httpxError .transport), [.audioQuery style_id text])
  | .response st body =>
    if is2xx st then
      let audio_query :=
        if speed ≠ 1 then dictSet body (("speedScale")) (.jnum speed) else body
      match eng.synthesisEp style_id audio_query with
      | .transportError =>
          (.error (.httpxError .transport),
           [.audioQuery style_id text, .synthesis style_id audio_query])
      | .response st2 audio_data =>
        if is2xx st2 then
          (.ok audio_data,
           [.audioQuery style_id text, .synthesis style_id audio_query])
        else
          (.error (.httpxError (.httpStatus st2)),
           [.audioQuery style_id text, .synthesis style_id audio_query])
    else
      (.error (.httpxError (.httpStatus st)), [.audioQuery style_id text])

/-- `AivisSpeechTTSProvider.synthesize` (aivis_speech.py lines 72-141):
resolve the voice id (raising `ValueError` with the offending id on
failure, before any network traffic), look the pair up in the registry, and
run the two-phase engine exchange. -/
def synthesize (eng : Engine) (text : String) (voice : String) (speed : ℚ) :
    Except PyExc (List Nat) × List EngineCall :=
  match parse_voice_id voice with
  | none => (.error (.valueError (invalidVoiceMsg voice)), [])
  | some (speaker_name, style_name) =>
    match speakersLookup speaker_name style_name with
    | none => (.error .keyError, [])
    | some style_id => synthesizeResolved eng text speed style_id

/-- One flattened voice record of `get_available_voices` (the dict of
aivis_speech.py lines 48-53). -/
structure Voice where
  id : String
  name : String
  speaker : String
  style_id : Nat
deriving DecidableEq, Repr

/-- `AivisSpeechTTSProvider.get_available_voices` (aivis_speech.py lines
36-60): GET /speakers, raise for a non-2xx status, and flatten each
speaker's styles into `{id, name, speaker, style_id}` records; the blanket
`except` at lines 58-60 turns any failure into an empty list. -/
def get_available_voices (eng : Engine) : List Voice :=
  match eng.speakersEp with
  | .transportError => []
  | .response st speakers =>
    if is2xx st then
      speakers.flatMap (fun sp => sp.styles.map (fun style =>
        { id := (sp.name ++ ("_")) ++ style.name
          name := style.name
          speaker := sp.name
          style_id := style.id }))
    else []

/-- `AivisSpeechTTSProvider.health_check` (aivis_speech.py lines 143-151):
GET /speakers and report whether the status code equals 200; any exception
yields `false`. -/
def health_check (eng : Engine) : Bool :=
  match eng.speakersEp with
  | .transportError => false
  | .response st _ => st == 200

/-- `AivisSpeechTTSProvider.BASE_URL` (aivis_speech.py line 16): the value
of the environment variable AIVIS_API_ENDPOINT when set, else the default
local address. -/
def BASE_URL (env : Option String) : String :=
  env.getD (("http://127.0.0.1:10101"))

/-- The URL the provider's /speakers requests target (aivis_speech.py lines
41 and 148): every probe of the engine catalog goes to the configured base
address. -/
def speakersUrl (env : Option String) : String :=
  BASE_URL env ++ ("/speakers")

/- ---------------------------------------------------------------------
   The FastAPI router (src/api/routers/aivis_tts.py)
--------------------------------------------------------------------- -/

/-- Python's default `str.strip()` whitespace set. -/
def isPySpace (c : Char) : Bool :=
  c = ' ' || c = '\t' || c = '\n' || c = '\r' || c = '\x0b' || c = '\x0c'

/-- Python `s.strip()`: drop leading and trailing whitespace characters. -/
def pyStrip (s : String) : String :=
  String.mk (((s.data.dropWhile isPySpace).reverse.dropWhile isPySpace).reverse)

/-- The `SpeechRequest` pydantic model (aivis_tts.py lines 18-27); pydantic
validates `0.5 ≤ speed ≤ 2.0` before the handler runs, and defaults
`voice` to kohaku_normal and `speed` to 1. -/
structure SpeechRequest where
  input : String
  model : String
  voice : String
  speed : ℚ

/-- What the `create_speech` handler ultimately sends: a 200 audio response
with the voice echoed in its headers, or an HTTP error status with a
detail string. -/
inductive ApiResult where
  | audio (body : List Nat) (voiceUsed : String)
  | httpError (status : Nat) (detail : String)
deriving DecidableEq, Repr

/-- The body of `create_speech`'s `try` block (aivis_tts.py lines 50-76):
raise `HTTPException(400)` when the input is falsy or strips to length 0,
raise `HTTPException(400)` when the input exceeds 5000 characters, else run
`synthesize` and return its audio bytes. -/
def create_speech_try (eng : Engine) (req : SpeechRequest) :
    Except PyExc (List Nat) × List EngineCall :=
  if req.input.data = [] ∨ (pyStrip req.input).data.length = 0 then
    (.error (.httpException 400 (("Input text cannot be empty"))), [])
  else if req.input.data.length > 5000 then
    (.error
      (.httpException 400 (("Input text too long (max 5000 characters)"))), [])
  else
    synthesize eng req.input req.voice req.speed

/-- The `create_speech` handler (aivis_tts.py lines 30-83): the `try` body,
then the `except` clauses in source order — `except ValueError` maps to a
400 with the error's message, and the blanket `except Exception` (which
also catches the `HTTPException(400)`s raised by the validation above) maps
everything else to a 500. -/
def create_speech (eng : Engine) (req : SpeechRequest) :
    ApiResult × List EngineCall :=
  match create_speech_try eng req with
  | (.ok audio_data, tr) => (.audio audio_data req.voice, tr)
  | (.error (.valueError msg), tr) => (.httpError 400 msg, tr)
  | (.error _, tr) => (.httpError 500 (("Failed to generate speech")), tr)

/-- The body of the `GET /v1/audio/health` route's response (aivis_tts.py
lines 100-109). -/
structure HealthResponse where
  status : String
  provider : String
  endpoint : String
deriving DecidableEq, Repr

/-- The `health_check` route handler (aivis_tts.py lines 100-109): status
from the provider probe, and a hardcoded literal in the `endpoint` field. -/
def health_check_route (eng : Engine) : HealthResponse :=
  { status := if health_check eng then ("healthy") else ("unhealthy")
    provider := ("aivis-speech")
    endpoint := ("http://127.0.0.1:10101") }

/- ---------------------------------------------------------------------
   Concrete engines and inputs used by witnesses and counterexamples
--------------------------------------------------------------------- -/

/-- A sample AudioQuery document as the engine would return it. -/
def q0 : AudioQuery :=
  [(("speedScale"), .jnum 1), (("pitchScale"), .jnum 0),
   (("kana"), .jstr (("test")))]

/-- Sample audio bytes (a RIFF header). -/
def wav0 : List Nat := [82, 73, 70, 70]

/-- A healthy engine: every endpoint answers 200 with fixed bodies. -/
def engOk : Engine :=
  { speakersEp :=
      .response 200 [{ name := ("kohaku")
                       styles := [{ name := ("normal"), id := 1878365376 }] }]
    audioQueryEp := fun _ _ => .response 200 q0
    synthesisEp := fun _ _ => .response 200 wav0 }

/-- An unreachable engine: every endpoint fails at the transport level. -/
def engDown : Engine :=
  { speakersEp := .transportError
    audioQueryEp := fun _ _ => .transportError
    synthesisEp := fun _ _ => .transportError }

/-- An engine whose audio-query endpoint answers HTTP 500. -/
def engQuery500 : Engine :=
  { speakersEp := .response 200 []
    audioQueryEp := fun _ _ => .response 500 []
    synthesisEp := fun _ _ => .response 200 wav0 }

/- ---------------------------------------------------------------------
   Helper lemmas
--------------------------------------------------------------------- -/

theorem dictLookup_dictSet_self (d : AudioQuery) (k : String) (v : JVal) :
    dictLookup (dictSet d k v) k = some v := by
  induction d with
  | nil => simp [dictSet, dictLookup]
  | cons e d ih =>
    obtain ⟨k', v'⟩ := e
    by_cases h : k' = k
    · simp [dictSet, h, dictLookup]
    · simp [dictSet, h, dictLookup, ih]

theorem dictLookup_dictSet_of_ne (d : AudioQuery) (k : String) (v : JVal)
    (k₁ : String) (h : k₁ ≠ k) :
    dictLookup (dictSet d k v) k₁ = dictLookup d k₁ := by
  induction d with
  | nil =>
    simp [dictSet, dictLookup, Ne.symm h]
  | cons e d ih =>
    obtain ⟨k', v'⟩ := e
    by_cases hk : k' = k
    · subst hk
      simp [dictSet, dictLookup, Ne.symm h]
    · simp [dictSet, hk, dictLookup, ih]

theorem synthesize_eq_resolved (eng : Engine) (text voice : String)
    (speed : ℚ) (sp st : String) (sid : Nat)
    (hp : parse_voice_id voice = some (sp, st))
    (hl : speakersLookup sp st = some sid) :
    synthesize eng text voice speed = synthesizeResolved eng text speed sid := by
  simp [synthesize, hp, hl]

theorem synthesizeResolved_trace (eng : Engine) (text : String) (speed : ℚ)
    (sid : Nat) (body : AudioQuery)
    (hq : eng.audioQueryEp sid text = .response 200 body) :
    (synthesizeResolved eng text speed sid).2 =
      [.audioQuery sid text,
       .synthesis sid
         (if speed ≠ 1 then dictSet body (("speedScale")) (.jnum speed)
          else body)] := by
  unfold synthesizeResolved
  rw [hq]
  have h200 : is2xx 200 = true := by decide
  simp only [h200, if_true]
  cases eng.synthesisEp sid
      (if speed ≠ 1 then dictSet body (("speedScale")) (.jnum speed) else body) with
  | transportError => rfl
  | response st2 audio =>
    by_cases h2 : is2xx st2 = true
    · simp [h2]
    · simp only [Bool.not_eq_true] at h2
      simp [h2]

theorem synthesizeResolved_speaker (eng : Engine) (text : String) (speed : ℚ)
    (sid : Nat) (c : EngineCall)
    (hc : c ∈ (synthesizeResolved eng text speed sid).2) :
    callSpeaker c = sid := by
  unfold synthesizeResolved at hc
  cases hq : eng.audioQueryEp sid text with
  | transportError =>
    rw [hq] at hc
    simp only [List.mem_singleton] at hc
    subst hc
    rfl
  | response st body =>
    rw [hq] at hc
    by_cases h1 : is2xx st = true
    · simp only [h1, if_true] at hc
      cases hs : eng.synthesisEp sid
          (if speed ≠ 1 then dictSet body (("speedScale")) (.jnum speed)
           else body) with
      | transportError =>
        rw [hs] at hc
        simp only [List.mem_cons, List.not_mem_nil, or_false] at hc
        rcases hc with rfl | rfl
        · rfl
        · rfl
      | response st2 audio =>
        rw [hs] at hc
        by_cases h2 : is2xx st2 = true
        · simp only [h2, if_true, List.mem_cons, List.not_mem_nil,
            or_false] at hc
          rcases hc with rfl | rfl
          · rfl
          · rfl
        · simp only [Bool.not_eq_true] at h2
          simp only [h2, Bool.false_eq_true, if_false, List.mem_cons,
            List.not_mem_nil, or_false] at hc
          rcases hc with rfl | rfl
          · rfl
          · rfl
    · simp only [Bool.not_eq_true] at h1
      simp only [h1] at hc
      simp only [Bool.false_eq_true, if_false, List.mem_singleton] at hc
      subst hc
      rfl

theorem dropWhile_replicate_a (n : Nat) :
    List.dropWhile isPySpace (List.replicate n (Char.ofNat 97)) =
      List.replicate n (Char.ofNat 97) := by
  cases n with
  | zero => rfl
  | succ m =>
    have : isPySpace (Char.ofNat 97) = false := by decide
    simp [List.replicate_succ, List.dropWhile_cons, this]

theorem pyStrip_replicate_a (n : Nat) :
    pyStrip (String.mk (List.replicate n (Char.ofNat 97))) =
      String.mk (List.replicate n (Char.ofNat 97)) := by
  show String.mk
      ((((List.replicate n (Char.ofNat 97)).dropWhile
        isPySpace).reverse.dropWhile isPySpace).reverse) = _
  rw [dropWhile_replicate_a, List.reverse_replicate, dropWhile_replicate_a,
    List.reverse_replicate]

/- ---------------------------------------------------------------------
   Claim theorems
--------------------------------------------------------------------- -/

/-- C3: for every input string, `parse_voice_id` returns the first
`(speakerName, styleName)` pair, in the registry's declaration order over
speakers and then styles, whose compound `"{speakerName}_{styleName}"` is a
literal prefix of the voice id (so a trailing suffix such as a locale tag,
e.g. kohaku_normal_ja, is silently accepted), and returns no match when no
declared compound is a prefix of the input. -/
theorem C3_parse_first_declared_match :
    (∀ v, parse_voice_id v = resolveSpecOrder v) ∧
    parse_voice_id (("kohaku_normal_ja")) = some ((("kohaku")), (("normal"))) ∧
    parse_voice_id (("unknown_voice")) = none := by
  refine ⟨fun v => ?_, by decide, by decide⟩
  simp only [parse_voice_id, resolveSpecOrder, declaredPairs]
  exact parseSpeakersLoop_eq_find v SPEAKERS

/-- C8: for every `(speakerName, styleName)` pair declared in the registry,
resolving the exact compound `"{speakerName}_{styleName}"` returns exactly
that pair. -/
theorem C8_resolve_exact_compound (sp st : String)
    (h : (sp, st) ∈ declaredPairs) :
    parse_voice_id ((sp ++ ("_")) ++ st) = some (sp, st) := by
  have hall : declaredPairs.all
      (fun p => decide (parse_voice_id ((p.1 ++ ("_")) ++ p.2) = some p)) =
        true := by decide
  exact of_decide_eq_true (List.all_eq_true.mp hall (sp, st) h)

/-- C8 witness: the declared pair (kohaku, nemutai) resolves from its exact
compound identifier. -/
theorem C8_resolve_exact_compound_witness :
    parse_voice_id (((("kohaku")) ++ ("_")) ++ (("nemutai"))) =
      some ((("kohaku")), (("nemutai"))) :=
  C8_resolve_exact_compound (("kohaku")) (("nemutai")) (by decide)

/-- C4: when the resolver finds no matching speaker/style prefix for the
requested voice identifier, `synthesize` raises `ValueError` whose message
embeds the offending identifier, and issues zero engine calls, for every
text and speed. -/
theorem C4_invalid_voice_no_network (eng : Engine) (text voice : String)
    (speed : ℚ) (h : parse_voice_id voice = none) :
    synthesize eng text voice speed =
      (.error (.valueError (invalidVoiceMsg voice)), []) ∧
    ∃ l r, (invalidVoiceMsg voice).data = (l ++ voice.data) ++ r := by
  refine ⟨by simp [synthesize, h], ?_⟩
  exact ⟨(("Invalid voice_id ")).data,
    ((". Expected format: speaker_style (e.g., kohaku_normal)")).data, rfl⟩

/-- C4 witness: at voice id unknown_voice (and a live engine oracle), the
error is raised, the identifier appears in its message, and the call trace
is empty. -/
theorem C4_invalid_voice_no_network_witness :
    synthesize engOk (("hello")) (("unknown_voice")) 1 =
      (.error (.valueError (invalidVoiceMsg (("unknown_voice")))), []) ∧
    ∃ l r, (invalidVoiceMsg (("unknown_voice"))).data =
      (l ++ (("unknown_voice")).data) ++ r :=
  C4_invalid_voice_no_network engOk (("hello")) (("unknown_voice")) 1
    (by decide)

/-- C2 counterexample: the registry's declared engine style id for
kohaku/normal is 1878365376, not 1878365378 as the claim (following the
spec) states; concretely, the first engine call of
`synthesize("hi", "kohaku_normal", 1.0)` carries speaker 1878365376. -/
theorem C2_counterexample :
    speakersLookup (("kohaku")) (("normal")) = some 1878365376 ∧
    (1878365376 : Nat) ≠ 1878365378 ∧
    (synthesize engOk (("hi")) (("kohaku_normal")) 1).2.head? =
      some (.audioQuery 1878365376 (("hi"))) := by
  refine ⟨by decide, by decide, ?_⟩
  rfl

/-- C2 (amended): `synthesize(text, "kohaku_normal", 1.0)` issues exactly
two engine calls — the first with speaker equal to the registry's declared
id for kohaku/normal, which is 1878365376, and the second with the document
returned from the first, unmodified since speed equals 1.0, and the same
speaker id. -/
theorem C2_two_calls_kohaku_normal (eng : Engine) (text : String)
    (q : AudioQuery)
    (hq : eng.audioQueryEp 1878365376 text = .response 200 q) :
    speakersLookup (("kohaku")) (("normal")) = some 1878365376 ∧
    (synthesize eng text (("kohaku_normal")) 1).2 =
      [.audioQuery 1878365376 text, .synthesis 1878365376 q] := by
  refine ⟨by decide, ?_⟩
  rw [synthesize_eq_resolved eng text (("kohaku_normal")) 1 (("kohaku"))
    (("normal")) 1878365376 (by decide) (by decide)]
  rw [synthesizeResolved_trace eng text 1 1878365376 q hq]
  simp

/-- C2 witness: the amended statement at a concrete healthy engine. -/
theorem C2_two_calls_kohaku_normal_witness :
    speakersLookup (("kohaku")) (("normal")) = some 1878365376 ∧
    (synthesize engOk (("hi")) (("kohaku_normal")) 1).2 =
      [.audioQuery 1878365376 (("hi")), .synthesis 1878365376 q0] :=
  C2_two_calls_kohaku_normal engOk (("hi")) q0 rfl

/-- C5: in `synthesize`, when speed differs from 1.0 the speedScale field
of the query document returned by the first engine call is set to speed
before the second call and every other field is forwarded unchanged; when
speed equals exactly 1.0 the document is forwarded entirely unmodified,
with no speedScale key injected. -/
theorem C5_speed_scale_override (eng : Engine) (text voice : String)
    (speed : ℚ) (sp st : String) (sid : Nat) (body : AudioQuery)
    (hp : parse_voice_id voice = some (sp, st))
    (hl : speakersLookup sp st = some sid)
    (hq : eng.audioQueryEp sid text = .response 200 body) :
    (speed ≠ 1 →
      (synthesize eng text voice speed).2 =
        [.audioQuery sid text,
         .synthesis sid (dictSet body (("speedScale")) (.jnum speed))] ∧
      dictLookup (dictSet body (("speedScale")) (.jnum speed))
          (("speedScale")) = some (.jnum speed) ∧
      ∀ k, k ≠ ("speedScale") →
        dictLookup (dictSet body (("speedScale")) (.jnum speed)) k =
          dictLookup body k) ∧
    (speed = 1 →
      (synthesize eng text voice speed).2 =
        [.audioQuery sid text, .synthesis sid body]) := by
  rw [synthesize_eq_resolved eng text voice speed sp st sid hp hl]
  constructor
  · intro hs
    refine ⟨?_, dictLookup_dictSet_self body _ _,
      fun k hk => dictLookup_dictSet_of_ne body _ _ k hk⟩
    rw [synthesizeResolved_trace eng text speed sid body hq]
    simp [hs]
  · intro hs
    rw [synthesizeResolved_trace eng text speed sid body hq]
    simp [hs]

/-- C5 witness: at speed 2 and voice mao_amama the forwarded document is
the query document with its speedScale field set to 2; at speed 1 and voice
kohaku_normal the query document is forwarded exactly as returned. -/
theorem C5_speed_scale_override_witness :
    ((2 : ℚ) ≠ 1 ∧
      (synthesize engOk (("hi")) (("mao_amama")) 2).2 =
        [.audioQuery 888753762 (("hi")),
         .synthesis 888753762 (dictSet q0 (("speedScale")) (.jnum 2))] ∧
      dictLookup (dictSet q0 (("speedScale")) (.jnum 2)) (("speedScale")) =
        some (.jnum 2)) ∧
    (synthesize engOk (("hi")) (("kohaku_normal")) 1).2 =
      [.audioQuery 1878365376 (("hi")), .synthesis 1878365376 q0] :=
  ⟨⟨by decide,
    ((C5_speed_scale_override engOk (("hi")) (("mao_amama")) 2 (("mao"))
        (("amama")) 888753762 q0 (by decide) (by decide) rfl).1
      (by decide)).1,
    ((C5_speed_scale_override engOk (("hi")) (("mao_amama")) 2 (("mao"))
        (("amama")) 888753762 q0 (by decide) (by decide) rfl).1
      (by decide)).2.1⟩,
   (C5_speed_scale_override engOk (("hi")) (("kohaku_normal")) 1 (("kohaku"))
      (("normal")) 1878365376 q0 (by decide) (by decide) rfl).2 rfl⟩

/-- C6: for every `synthesize` invocation, when the first engine call fails
— by transport failure or by a non-success HTTP status — the synthesis call
is never made (the trace holds the audio-query call only) and the operation
aborts with the propagated engine error, with no result. -/
theorem C6_first_call_failure_aborts (eng : Engine) (text voice : String)
    (speed : ℚ) (sp st : String) (sid : Nat)
    (hp : parse_voice_id voice = some (sp, st))
    (hl : speakersLookup sp st = some sid) :
    (eng.audioQueryEp sid text = .transportError →
      synthesize eng text voice speed =
        (.error (.httpxError .transport), [.audioQuery sid text])) ∧
    (∀ stc body, eng.audioQueryEp sid text = .response stc body →
      is2xx stc = false →
      synthesize eng text voice speed =
        (.error (.httpxError (.httpStatus stc)), [.audioQuery sid text])) := by
  rw [synthesize_eq_resolved eng text voice speed sp st sid hp hl]
  constructor
  · intro h
    unfold synthesizeResolved
    rw [h]
  · intro stc body h hnot
    unfold synthesizeResolved
    rw [h]
    simp [hnot]

/-- C6 witness: an unreachable engine aborts after the audio-query call
with a transport error, and an engine answering HTTP 500 on the audio-query
aborts after it with a status error; neither trace holds a synthesis
call. -/
theorem C6_first_call_failure_aborts_witness :
    synthesize engDown (("hi")) (("kohaku_normal")) 1 =
      (.error (.httpxError .transport), [.audioQuery 1878365376 (("hi"))]) ∧
    synthesize engQuery500 (("hi")) (("kohaku_normal")) 1 =
      (.error (.httpxError (.httpStatus 500)),
       [.audioQuery 1878365376 (("hi"))]) :=
  ⟨(C6_first_call_failure_aborts engDown (("hi")) (("kohaku_normal")) 1
      (("kohaku")) (("normal")) 1878365376 (by decide) (by decide)).1 rfl,
   (C6_first_call_failure_aborts engQuery500 (("hi")) (("kohaku_normal")) 1
      (("kohaku")) (("normal")) 1878365376 (by decide) (by decide)).2 500 []
      rfl (by decide)⟩

/-- C7: every engine call `synthesize` issues carries a speaker id obtained
from the registry via a successful resolver lookup of the requested voice
identifier — so the resolved pair is a declared registry pair — and all
calls of one invocation carry the same id. -/
theorem C7_registry_style_ids (eng : Engine) (text voice : String)
    (speed : ℚ) (c : EngineCall)
    (hc : c ∈ (synthesize eng text voice speed).2) :
    ∃ sp st, parse_voice_id voice = some (sp, st) ∧
      (sp, st) ∈ declaredPairs ∧
      speakersLookup sp st = some (callSpeaker c) ∧
      ∀ c', c' ∈ (synthesize eng text voice speed).2 →
        callSpeaker c' = callSpeaker c := by
  cases hp : parse_voice_id voice with
  | none =>
    simp [synthesize, hp] at hc
  | some p =>
    obtain ⟨sp, st⟩ := p
    cases hl : speakersLookup sp st with
    | none =>
      simp [synthesize, hp, hl] at hc
    | some sid =>
      have heq := synthesize_eq_resolved eng text voice speed sp st sid hp hl
      rw [heq] at hc
      have hcs := synthesizeResolved_speaker eng text speed sid c hc
      refine ⟨sp, st, rfl, ?_, ?_, ?_⟩
      · have hfind := (parseSpeakersLoop_eq_find voice SPEAKERS).symm.trans hp
        exact List.mem_of_find?_eq_some hfind
      · rw [hcs]
        exact hl
      · intro c' hc'
        rw [heq] at hc'
        rw [synthesizeResolved_speaker eng text speed sid c' hc', hcs]

/-- C7 witness: at a healthy engine and voice kohaku_normal, the
audio-query call of the trace carries a registry-resolved speaker id, and
every call of the trace carries the same id. -/
theorem C7_registry_style_ids_witness :
    ∃ sp st, parse_voice_id (("kohaku_normal")) = some (sp, st) ∧
      (sp, st) ∈ declaredPairs ∧
      speakersLookup sp st =
        some (callSpeaker (.audioQuery 1878365376 (("hi")))) ∧
      ∀ c', c' ∈ (synthesize engOk (("hi")) (("kohaku_normal")) 1).2 →
        callSpeaker c' = callSpeaker (.audioQuery 1878365376 (("hi"))) :=
  C7_registry_style_ids engOk (("hi")) (("kohaku_normal")) 1
    (.audioQuery 1878365376 (("hi"))) (by decide)

theorem data_mk (l : List Char) : (String.mk l).data = l := rfl

/-- An input of exactly 5000 characters. -/
def maxInput : String := String.mk (List.replicate 5000 (Char.ofNat 97))

/-- An input of 5001 characters. -/
def longInput : String := String.mk (List.replicate 5001 (Char.ofNat 97))

def reqWith (input : String) : SpeechRequest :=
  { input := input, model := ("aivis-speech"), voice := ("kohaku_normal")
    speed := 1 }

theorem create_speech_invalid_input (eng : Engine) (req : SpeechRequest)
    (h1 : req.input.data = [] ∨ (pyStrip req.input).data.length = 0) :
    create_speech eng req =
      (.httpError 500 (("Failed to generate speech")), []) := by
  unfold create_speech create_speech_try
  rw [if_pos h1]

theorem create_speech_too_long (eng : Engine) (req : SpeechRequest)
    (h1 : ¬(req.input.data = [] ∨ (pyStrip req.input).data.length = 0))
    (h2 : req.input.data.length > 5000) :
    create_speech eng req =
      (.httpError 500 (("Failed to generate speech")), []) := by
  unfold create_speech create_speech_try
  rw [if_neg h1, if_pos h2]

theorem create_speech_success (eng : Engine) (req : SpeechRequest)
    (h1 : ¬(req.input.data = [] ∨ (pyStrip req.input).data.length = 0))
    (h2 : ¬(req.input.data.length > 5000))
    (audio : List Nat) (tr : List EngineCall)
    (hs : synthesize eng req.input req.voice req.speed = (.ok audio, tr)) :
    create_speech eng req = (.audio audio req.voice, tr) := by
  unfold create_speech create_speech_try
  rw [if_neg h1, if_neg h2, hs]

theorem synthesize_engOk (text : String) :
    synthesize engOk text (("kohaku_normal")) 1 =
      (.ok wav0, [.audioQuery 1878365376 text, .synthesis 1878365376 q0]) := by
  rw [synthesize_eq_resolved engOk text (("kohaku_normal")) 1 (("kohaku"))
    (("normal")) 1878365376 (by decide) (by decide)]
  rfl

/-- C1 (code bug): the handler does reject empty, all-whitespace and
over-5000-character input before any engine call (the call trace is empty),
and an input of exactly 5000 characters passes validation and reaches the
engine — but the rejections reach the client as HTTP 500, not 400: the
`HTTPException(status_code=400)` raised by the validation is caught by the
handler's own blanket `except Exception` clause and replaced by
`HTTPException(500, "Failed to generate speech")`. -/
theorem C1_validation_rejections_surface_as_500 :
    create_speech engOk (reqWith ("")) =
      (.httpError 500 (("Failed to generate speech")), []) ∧
    create_speech engOk (reqWith ("   ")) =
      (.httpError 500 (("Failed to generate speech")), []) ∧
    create_speech engOk (reqWith longInput) =
      (.httpError 500 (("Failed to generate speech")), []) ∧
    longInput.data.length = 5001 ∧
    create_speech engOk (reqWith maxInput) =
      (.audio wav0 (("kohaku_normal")),
       [.audioQuery 1878365376 maxInput, .synthesis 1878365376 q0]) ∧
    maxInput.data.length = 5000 := by
  have hrep : ∀ n : Nat, n ≠ 0 →
      ¬(List.replicate n (Char.ofNat 97) = [] ∨
        (List.replicate n (Char.ofNat 97)).length = 0) := by
    intro n hn h
    rcases h with h | h
    · have := congrArg List.length h
      rw [List.length_replicate] at this
      exact hn this
    · rw [List.length_replicate] at h
      exact hn h
  have hlong1 :
      ¬((reqWith longInput).input.data = [] ∨
        (pyStrip (reqWith longInput).input).data.length = 0) := by
    simp only [reqWith, longInput, data_mk, pyStrip_replicate_a]
    exact hrep 5001 (by decide)
  have hmax1 :
      ¬((reqWith maxInput).input.data = [] ∨
        (pyStrip (reqWith maxInput).input).data.length = 0) := by
    simp only [reqWith, maxInput, data_mk, pyStrip_replicate_a]
    exact hrep 5000 (by decide)
  have hmax2 : ¬((reqWith maxInput).input.data.length > 5000) := by
    simp only [reqWith, maxInput, data_mk, List.length_replicate]
    exact (by decide : ¬(5000 > 5000))
  refine ⟨?_, ?_, ?_,
    by simp only [longInput, data_mk, List.length_replicate], ?_,
    by simp only [maxInput, data_mk, List.length_replicate]⟩
  · exact create_speech_invalid_input engOk _ (Or.inl rfl)
  · exact create_speech_invalid_input engOk _ (Or.inr (by decide))
  · refine create_speech_too_long engOk _ hlong1 ?_
    simp only [reqWith, longInput, data_mk, List.length_replicate]
    exact (by decide : 5001 > 5000)
  · exact create_speech_success engOk (reqWith maxInput) hmax1 hmax2
      wav0 [.audioQuery 1878365376 maxInput, .synthesis 1878365376 q0]
      (synthesize_engOk maxInput)

/-- C9: `get_available_voices` flattens the engine's catalog into one
record per (speaker, style) pair of the form
`{id: "{speaker}_{style}", name, speaker, style_id}` — a catalog of the
single speaker kohaku with the single style normal/1878365376 yields
exactly that one record — and any failure (transport error or non-success
status) yields an empty list rather than an error. -/
theorem C9_list_voices_flattens_and_fails_open (eng : Engine) :
    (∀ speakers, eng.speakersEp = .response 200 speakers →
      get_available_voices eng =
        speakers.flatMap (fun sp => sp.styles.map (fun style =>
          { id := (sp.name ++ ("_")) ++ style.name
            name := style.name
            speaker := sp.name
            style_id := style.id }))) ∧
    (eng.speakersEp = .transportError → get_available_voices eng = []) ∧
    (∀ stc body, eng.speakersEp = .response stc body → is2xx stc = false →
      get_available_voices eng = []) ∧
    get_available_voices engOk =
      [{ id := ("kohaku_normal"), name := ("normal"), speaker := ("kohaku")
         style_id := 1878365376 }] := by
  refine ⟨?_, ?_, ?_, by decide⟩
  · intro speakers h
    unfold get_available_voices
    rw [h]
    rfl
  · intro h
    unfold get_available_voices
    rw [h]
  · intro stc body h hnot
    unfold get_available_voices
    rw [h]
    simp [hnot]

/-- C9 witness: the one-speaker catalog of `engOk` flattens to the single
kohaku_normal record, and the failing engine `engDown` yields the empty
list. -/
theorem C9_list_voices_witness :
    get_available_voices engOk =
      [{ id := ("kohaku_normal"), name := ("normal"), speaker := ("kohaku")
         style_id := 1878365376 }] ∧
    get_available_voices engDown = [] :=
  ⟨(C9_list_voices_flattens_and_fails_open engOk).2.2.2,
   (C9_list_voices_flattens_and_fails_open engDown).2.1 rfl⟩

/-- C10 (code bug): the health route's `endpoint` field is the hardcoded
literal default address for every engine outcome, while the base address
the provider actually uses to reach the engine is `BASE_URL`, which follows
the AIVIS_API_ENDPOINT environment variable; so for any non-default
configuration the reported endpoint differs from the configured one. The
`status` and `provider` fields behave as the claim says. -/
theorem C10_health_endpoint_hardcoded :
    (∀ eng, (health_check_route eng).endpoint = ("http://127.0.0.1:10101")) ∧
    (∀ url, BASE_URL (some url) = url) ∧
    speakersUrl (some (("http://aivis.example:9999"))) =
      ("http://aivis.example:9999/speakers") ∧
    (health_check_route engOk).endpoint ≠
      BASE_URL (some (("http://aivis.example:9999"))) ∧
    (health_check_route engOk).status = ("healthy") ∧
    (health_check_route engDown).status = ("unhealthy") ∧
    (health_check_route engOk).provider = ("aivis-speech") := by
  refine ⟨fun eng => rfl, fun url => rfl, by decide, by decide, by decide,
    by decide, by decide⟩

end AivisSpec
